import Mathlib

/-!
Shallow embedding of `src/project1/virtual_device.py`, an MQTT virtual-device
simulator, together with theorems settling the specification claims.

Modelling conventions:
* Python floats are modelled as rationals (`ℚ`); Python's `round(x, n)` is
  modelled with Mathlib's `round` scaled by `10^n` (the spec fixes ranges and
  precision, not tie-breaking, so the half-even vs half-up difference is
  immaterial for every claimed bound).
* Randomness (`random.uniform`, `random.choice`, `random.randint`,
  `random.random`) is modelled by passing each draw as an explicit argument,
  constrained in theorems by the drawn range.
* Wall-clock time (`datetime.now()`) is modelled by passing the current hour
  and the ISO-formatted timestamp string as arguments.
* The per-device daemon thread and its `while self.is_running` loop are
  modelled as a trace function over a schedule: each loop iteration records
  the value of `is_running` observed at the top of the loop and the outcome
  of the tick body (publish succeeded or raised), and the trace lists the
  externally visible actions the loop performs.
-/

namespace VirtualDeviceSim

/-- Python `round(x, 1)`: round to one decimal place. -/
def round1 (x : ℚ) : ℚ := ((round (10 * x) : ℤ) : ℚ) / 10

/-- Python `round(x, 2)`: round to two decimal places. -/
def round2 (x : ℚ) : ℚ := ((round (100 * x) : ℤ) : ℚ) / 100

/-- A JSON value, as produced by `json.dumps` of the generators' dicts.
Python dicts preserve insertion order, so an object is a list of fields. -/
inductive JsonVal where
  | str (s : String)
  | num (q : ℚ)
  | bool (b : Bool)
  | obj (fields : List (String × JsonVal))

/-- Top-level keys of a JSON object (empty for non-objects). -/
def JsonVal.keys : JsonVal → List String
  | .obj fields => fields.map Prod.fst
  | _ => []

/-- The payload record every generator returns:
`{"device_id": ..., "device_type": ..., "timestamp": ..., "data": {...}}`. -/
structure Reading where
  device_id : String
  device_type : String
  timestamp : String
  data : List (String × JsonVal)

/-- Serialization of a reading (the dict literal each `generate_data` builds,
in source order). -/
def Reading.toJson (r : Reading) : JsonVal :=
  .obj [("device_id", .str r.device_id), ("device_type", .str r.device_type),
        ("timestamp", .str r.timestamp), ("data", .obj r.data)]

/-- Base-class state of `VirtualDevice.__init__` (lines 19-25): identifier,
type tag, publish interval, the `is_running` flag and the `thread` slot
(`None` until `start` assigns a thread; modelled by an optional thread id). -/
structure VirtualDevice where
  device_id : String
  device_type : String
  publish_interval : ℕ
  is_running : Bool
  thread : Option ℕ
  deriving DecidableEq

/-- `VirtualDevice.__init__`: `is_running = False`, `thread = None`. -/
def VirtualDevice.init (device_id device_type : String)
    (publish_interval : ℕ := 5) : VirtualDevice :=
  { device_id := device_id, device_type := device_type,
    publish_interval := publish_interval, is_running := false, thread := none }

/-- The telemetry topic built in `_run` (line 51):
`f"devices/{self.device_type}/{self.device_id}/data"`. -/
def VirtualDevice.topic (d : VirtualDevice) : String :=
  "devices/" ++ d.device_type ++ "/" ++ d.device_id ++ "/data"

/-- A device plus the set of live loop threads: a thread id is live from the
moment `threading.Thread(target=self._run).start()` spawns it until its
`while self.is_running` loop observes `is_running = False` and exits. -/
structure DeviceSys where
  dev : VirtualDevice
  liveLoops : List ℕ
  deriving DecidableEq

/-- A fresh, never-started device system. -/
def DeviceSys.init (device_id device_type : String)
    (publish_interval : ℕ := 5) : DeviceSys :=
  { dev := VirtualDevice.init device_id device_type publish_interval,
    liveLoops := [] }

/-- `VirtualDevice.start` (lines 31-37), verbatim from the source: it
unconditionally sets `is_running = True`, creates a NEW thread running
`_run`, overwrites `self.thread` with it and starts it.  There is no guard
on `is_running`, and nothing stops an already-live loop (its loop condition
`self.is_running` is set to `True`), so the freshly spawned loop is added to
the live set. `t` is the id of the newly created thread. -/
def DeviceSys.start (s : DeviceSys) (t : ℕ) : DeviceSys :=
  { dev := { s.dev with is_running := true, thread := some t },
    liveLoops := t :: s.liveLoops }

/-- A loop thread may exit only after observing `is_running = False` at the
top of the `while` loop; while the flag is `True` no loop exits. -/
def DeviceSys.loopExit (s : DeviceSys) (t : ℕ) : DeviceSys :=
  if s.dev.is_running then s else { s with liveLoops := s.liveLoops.erase t }

/-- Actions `stop` performs besides mutating the device state. -/
inductive StopAction where
  | join (t : ℕ)
  deriving DecidableEq

/-- `VirtualDevice.stop` (lines 39-44): sets `is_running = False`, then
`if self.thread: self.thread.join()` — joins (blocks on) the recorded thread
when one exists, otherwise skips the join. Returns the updated device and
the list of join actions performed. -/
def VirtualDevice.stop (d : VirtualDevice) : VirtualDevice × List StopAction :=
  ({ d with is_running := false },
   match d.thread with
   | some t => [StopAction.join t]
   | none => [])

/-- Outcome of one tick body: either the publish succeeded, or some step of
the `try` block raised an exception (a publish failure). -/
inductive TickOutcome where
  | ok
  | publishFail
  deriving DecidableEq

/-- Externally visible actions of the `_run` loop. -/
inductive LoopAction where
  | publish (topic : String) (payload : JsonVal)
  | logError
  | sleep (n : ℕ)

/-- `VirtualDevice._run` (lines 46-60) as a trace function.  The schedule
lists, per loop iteration, the value of `is_running` observed at the top of
the `while` loop and the tick outcome; `gen i` is the reading produced on
tick `i`.  A successful tick publishes the serialized reading to the
device's topic and sleeps `publish_interval`; a failing tick is caught by
the `except` clause, logs the error and sleeps 1 second; either way the
loop re-enters. The loop exits exactly when it observes `is_running = False`. -/
def deviceRun (d : VirtualDevice) (gen : ℕ → Reading) :
    ℕ → List (Bool × TickOutcome) → List LoopAction
  | _, [] => []
  | i, (flag, o) :: rest =>
    if flag then
      match o with
      | TickOutcome.ok =>
          LoopAction.publish d.topic (Reading.toJson (gen i))
            :: LoopAction.sleep d.publish_interval :: deviceRun d gen (i + 1) rest
      | TickOutcome.publishFail =>
          LoopAction.logError :: LoopAction.sleep 1 :: deviceRun d gen (i + 1) rest
    else []

/-- State of `TemperatureHumiditySensor.__init__` (lines 64-67):
`base_temp = 25.0`, `base_humidity = 60.0`. -/
structure TempHumState where
  base_temp : ℚ
  base_humidity : ℚ
  deriving DecidableEq

/-- The constructor's fixed base values. -/
def TempHumState.init : TempHumState := { base_temp := 25, base_humidity := 60 }

/-- `TemperatureHumiditySensor.generate_data` (lines 69-87).
`temp_variation` models `random.uniform(-2, 2)`, `humidity_variation` models
`random.uniform(-5, 5)`, `now` models `datetime.now().isoformat()`.  Returns
the reading and the (unchanged) sensor state. -/
def TemperatureHumiditySensor.generate_data (d : VirtualDevice) (s : TempHumState)
    (temp_variation humidity_variation : ℚ) (now : String) : Reading × TempHumState :=
  let temperature := round1 (s.base_temp + temp_variation)
  let humidity := round1 (max 0 (min 100 (s.base_humidity + humidity_variation)))
  ({ device_id := d.device_id, device_type := d.device_type, timestamp := now,
     data := [("temperature", JsonVal.num temperature),
              ("humidity", JsonVal.num humidity),
              ("unit_temp", JsonVal.str "°C"),
              ("unit_humidity", JsonVal.str "%")] }, s)

/-- `LightSensor.generate_data` (lines 94-112). `current_hour` models
`datetime.now().hour`, `variation` models the uniform draw of the taken
branch (`uniform(-200, 300)` by day, `uniform(-30, 50)` by night). -/
def LightSensor.generate_data (d : VirtualDevice) (current_hour : ℕ)
    (variation : ℚ) (now : String) : Reading :=
  let base_light := if 6 ≤ current_hour ∧ current_hour ≤ 18
    then 500 + variation else 50 + variation
  let light_intensity := max 0 (round1 base_light)
  { device_id := d.device_id, device_type := d.device_type, timestamp := now,
    data := [("light_intensity", JsonVal.num light_intensity),
             ("unit", JsonVal.str "lux")] }

/-- `MotionSensor.generate_data` (lines 119-131). `motion_detected` models
`random.choice([True, False])`; `count_draw` models `random.randint(0, 5)`
(only consulted when motion was detected). -/
def MotionSensor.generate_data (d : VirtualDevice) (motion_detected : Bool)
    (count_draw : ℕ) (now : String) : Reading :=
  { device_id := d.device_id, device_type := d.device_type, timestamp := now,
    data := [("motion_detected", JsonVal.bool motion_detected),
             ("detection_count",
              JsonVal.num (if motion_detected then (count_draw : ℚ) else 0))] }

/-- State of `SmartSwitch.__init__` (lines 135-138):
`is_on = False`, `power_consumption = 0.0`. -/
structure SmartSwitchState where
  is_on : Bool
  power_consumption : ℚ
  deriving DecidableEq

/-- The constructor's initial switch state. -/
def SmartSwitchState.init : SmartSwitchState := { is_on := false, power_consumption := 0 }

/-- `SmartSwitch.generate_data` (lines 140-160). `toggle` models the event
`random.random() < 0.1` (probability 0.1); `power_draw` models
`random.uniform(5, 100)` (only consulted when the switch ends up ON).
Returns the reading and the mutated switch state, which the device carries
to the next tick. -/
def SmartSwitch.generate_data (d : VirtualDevice) (s : SmartSwitchState)
    (toggle : Bool) (power_draw : ℚ) (now : String) : Reading × SmartSwitchState :=
  let is_on := if toggle then !s.is_on else s.is_on
  let power := if is_on then round2 power_draw else 0
  ({ device_id := d.device_id, device_type := d.device_type, timestamp := now,
     data := [("switch_state", JsonVal.str (if is_on then "ON" else "OFF")),
              ("power_consumption", JsonVal.num power),
              ("unit", JsonVal.str "W")] },
   { is_on := is_on, power_consumption := power })

/-- Registry state of `MQTTVirtualDeviceManager` (line 170): `self.devices`,
an insertion-ordered Python list. -/
structure MQTTVirtualDeviceManager where
  devices : List VirtualDevice
  deriving DecidableEq

/-- `MQTTVirtualDeviceManager.add_device` (lines 214-217), verbatim from the
source: `self.devices.append(device)` — an unconditional append with no
duplicate-id check. -/
def MQTTVirtualDeviceManager.add_device (m : MQTTVirtualDeviceManager)
    (d : VirtualDevice) : MQTTVirtualDeviceManager :=
  { m with devices := m.devices ++ [d] }

/-- `MQTTVirtualDeviceManager.stop_all_devices` (lines 225-229):
`for device in self.devices: device.stop()`.  Returns the updated registry
and the concatenation of every device's join actions. -/
def MQTTVirtualDeviceManager.stop_all_devices (m : MQTTVirtualDeviceManager) :
    MQTTVirtualDeviceManager × List StopAction :=
  ({ m with devices := m.devices.map (fun d => (VirtualDevice.stop d).1) },
   m.devices.flatMap (fun d => (VirtualDevice.stop d).2))

/-! ### Rounding helper lemmas -/

/-- `round` on `ℚ` is monotone. -/
theorem round_mono_q {x y : ℚ} (h : x ≤ y) : round x ≤ round y := by
  rw [round_eq, round_eq]
  exact Int.floor_mono (by linarith)

/-- Lower bound for `round1` from an integer lower bound on the input. -/
theorem intCast_le_round1 {n : ℤ} {x : ℚ} (h : (n : ℚ) ≤ x) : (n : ℚ) ≤ round1 x := by
  have h10 : ((10 * n : ℤ) : ℚ) ≤ 10 * x := by push_cast; linarith
  have hr : 10 * n ≤ round (10 * x) := by
    have h2 := round_mono_q h10
    rwa [round_intCast] at h2
  unfold round1
  rw [le_div_iff₀ (by norm_num : (0 : ℚ) < 10)]
  have h3 : ((10 * n : ℤ) : ℚ) ≤ ((round (10 * x) : ℤ) : ℚ) := by exact_mod_cast hr
  push_cast at h3 ⊢
  linarith

/-- Upper bound for `round1` from an integer upper bound on the input. -/
theorem round1_le_intCast {n : ℤ} {x : ℚ} (h : x ≤ (n : ℚ)) : round1 x ≤ (n : ℚ) := by
  have h10 : 10 * x ≤ ((10 * n : ℤ) : ℚ) := by push_cast; linarith
  have hr : round (10 * x) ≤ 10 * n := by
    have h2 := round_mono_q h10
    rwa [round_intCast] at h2
  unfold round1
  rw [div_le_iff₀ (by norm_num : (0 : ℚ) < 10)]
  have h3 : ((round (10 * x) : ℤ) : ℚ) ≤ ((10 * n : ℤ) : ℚ) := by exact_mod_cast hr
  push_cast at h3 ⊢
  linarith

/-- Lower bound for `round2` from an integer lower bound on the input. -/
theorem intCast_le_round2 {n : ℤ} {x : ℚ} (h : (n : ℚ) ≤ x) : (n : ℚ) ≤ round2 x := by
  have h10 : ((100 * n : ℤ) : ℚ) ≤ 100 * x := by push_cast; linarith
  have hr : 100 * n ≤ round (100 * x) := by
    have h2 := round_mono_q h10
    rwa [round_intCast] at h2
  unfold round2
  rw [le_div_iff₀ (by norm_num : (0 : ℚ) < 100)]
  have h3 : ((100 * n : ℤ) : ℚ) ≤ ((round (100 * x) : ℤ) : ℚ) := by exact_mod_cast hr
  push_cast at h3 ⊢
  linarith

/-- Upper bound for `round2` from an integer upper bound on the input. -/
theorem round2_le_intCast {n : ℤ} {x : ℚ} (h : x ≤ (n : ℚ)) : round2 x ≤ (n : ℚ) := by
  have h10 : 100 * x ≤ ((100 * n : ℤ) : ℚ) := by push_cast; linarith
  have hr : round (100 * x) ≤ 100 * n := by
    have h2 := round_mono_q h10
    rwa [round_intCast] at h2
  unfold round2
  rw [div_le_iff₀ (by norm_num : (0 : ℚ) < 100)]
  have h3 : ((round (100 * x) : ℤ) : ℚ) ≤ ((100 * n : ℤ) : ℚ) := by exact_mod_cast hr
  push_cast at h3 ⊢
  linarith

/-- Once the loop observes `is_running = False` at the top of an iteration,
it performs no further actions: every schedule entry after the first
observed `False` flag contributes nothing to the trace. -/
theorem deviceRun_false_flag (d : VirtualDevice) (gen : ℕ → Reading) :
    ∀ (i : ℕ) (s1 : List (Bool × TickOutcome)) (o : TickOutcome)
      (s2 : List (Bool × TickOutcome)),
      deviceRun d gen i (s1 ++ (false, o) :: s2) = deviceRun d gen i s1 := by
  intro i s1
  induction s1 generalizing i with
  | nil => intro o s2; rfl
  | cons p s1 ih =>
    intro o s2
    obtain ⟨flag, po⟩ := p
    cases flag with
    | false => rfl
    | true =>
      cases po with
      | ok => simpa [deviceRun] using ih (i + 1) o s2
      | publishFail => simpa [deviceRun] using ih (i + 1) o s2

/-- The join actions produced by stopping a list of devices: exactly one
join per device that has a recorded thread. -/
theorem stopActions_length (l : List VirtualDevice) :
    (l.flatMap fun d => (VirtualDevice.stop d).2).length
      = (l.filter fun d => d.thread.isSome).length := by
  induction l with
  | nil => rfl
  | cons dh dt ih =>
    cases hth : dh.thread with
    | none =>
      simpa [VirtualDevice.stop, hth, List.filter_cons] using ih
    | some th =>
      simpa [VirtualDevice.stop, hth, List.filter_cons] using ih

/-! ### Claim theorems -/

/-- C1 (code evaluated at the failing input): `VirtualDevice.start` has no
guard on `is_running`.  Starting `temp_sensor_001` (thread 0) and then
calling `start` again while it is running (thread 1) leaves TWO live publish
loops; no loop can exit because `is_running` stays `True`; moreover
`self.thread` now points at the newer thread only, so `stop` would join only
thread 1, orphaning thread 0.  This refutes the claim that `start()` on a
running Device fails or is a no-op. -/
theorem claim_C1_double_start_spawns_second_loop :
    ((DeviceSys.init "temp_sensor_001" "temperature_humidity" 5).start 0).dev.is_running = true
      ∧ (((DeviceSys.init "temp_sensor_001" "temperature_humidity" 5).start 0).start 1).liveLoops = [1, 0]
      ∧ (((DeviceSys.init "temp_sensor_001" "temperature_humidity" 5).start 0).start 1).liveLoops.length = 2
      ∧ (((DeviceSys.init "temp_sensor_001" "temperature_humidity" 5).start 0).start 1).dev.thread = some 1
      ∧ (((DeviceSys.init "temp_sensor_001" "temperature_humidity" 5).start 0).start 1).loopExit 0
          = ((DeviceSys.init "temp_sensor_001" "temperature_humidity" 5).start 0).start 1
      ∧ (((DeviceSys.init "temp_sensor_001" "temperature_humidity" 5).start 0).start 1).loopExit 1
          = ((DeviceSys.init "temp_sensor_001" "temperature_humidity" 5).start 0).start 1
      ∧ (VirtualDevice.stop ((((DeviceSys.init "temp_sensor_001" "temperature_humidity" 5).start 0).start 1).dev)).2
          = [StopAction.join 1] :=
  ⟨rfl, rfl, rfl, rfl, rfl, rfl, rfl⟩

/-- C2 counterexample: with a device of id `"x"` already registered,
`add_device` of a second device with the same id `"x"` does not fail and
does not leave the registry unchanged: it registers the duplicate, growing
the registry to two devices both with id `"x"`. -/
theorem claim_C2_duplicate_id_not_rejected :
    ((MQTTVirtualDeviceManager.mk [VirtualDevice.init "x" "temperature_humidity" 5]).devices.map
        VirtualDevice.device_id) = ["x"]
      ∧ (((MQTTVirtualDeviceManager.mk [VirtualDevice.init "x" "temperature_humidity" 5]).add_device
            (VirtualDevice.init "x" "light" 8)).devices.map VirtualDevice.device_id) = ["x", "x"]
      ∧ ((MQTTVirtualDeviceManager.mk [VirtualDevice.init "x" "temperature_humidity" 5]).add_device
            (VirtualDevice.init "x" "light" 8)).devices.length = 2
      ∧ ((MQTTVirtualDeviceManager.mk [VirtualDevice.init "x" "temperature_humidity" 5]).add_device
            (VirtualDevice.init "x" "light" 8))
          ≠ MQTTVirtualDeviceManager.mk [VirtualDevice.init "x" "temperature_humidity" 5] := by
  refine ⟨rfl, rfl, rfl, ?_⟩
  decide

/-- C2 amended: `add_device` registers the device unconditionally, by
appending it to the registry — it never fails, performs no duplicate-id
check, and retains every previously registered device (so devices with
duplicate ids can coexist in the registry). -/
theorem claim_C2_add_device_always_appends (m : MQTTVirtualDeviceManager)
    (d : VirtualDevice) (d' : VirtualDevice) (hmem : d' ∈ m.devices) :
    (m.add_device d).devices = m.devices ++ [d]
      ∧ (m.add_device d).devices.length = m.devices.length + 1
      ∧ d ∈ (m.add_device d).devices
      ∧ d' ∈ (m.add_device d).devices := by
  refine ⟨rfl, by simp [MQTTVirtualDeviceManager.add_device], ?_, ?_⟩
  · simp [MQTTVirtualDeviceManager.add_device]
  · simp [MQTTVirtualDeviceManager.add_device]
    exact Or.inl hmem

/-- C2 amended, witness: a concrete registry with a device already present. -/
theorem claim_C2_add_device_always_appends_witness :
    VirtualDevice.init "x" "temperature_humidity" 5
        ∈ (MQTTVirtualDeviceManager.mk [VirtualDevice.init "x" "temperature_humidity" 5]).devices
      ∧ (((MQTTVirtualDeviceManager.mk [VirtualDevice.init "x" "temperature_humidity" 5]).add_device
            (VirtualDevice.init "x" "light" 8)).devices
          = (MQTTVirtualDeviceManager.mk [VirtualDevice.init "x" "temperature_humidity" 5]).devices
              ++ [VirtualDevice.init "x" "light" 8]
        ∧ ((MQTTVirtualDeviceManager.mk [VirtualDevice.init "x" "temperature_humidity" 5]).add_device
              (VirtualDevice.init "x" "light" 8)).devices.length
            = (MQTTVirtualDeviceManager.mk [VirtualDevice.init "x" "temperature_humidity" 5]).devices.length + 1
        ∧ VirtualDevice.init "x" "light" 8
            ∈ ((MQTTVirtualDeviceManager.mk [VirtualDevice.init "x" "temperature_humidity" 5]).add_device
                (VirtualDevice.init "x" "light" 8)).devices
        ∧ VirtualDevice.init "x" "temperature_humidity" 5
            ∈ ((MQTTVirtualDeviceManager.mk [VirtualDevice.init "x" "temperature_humidity" 5]).add_device
                (VirtualDevice.init "x" "light" 8)).devices) :=
  ⟨by decide,
   claim_C2_add_device_always_appends
     (MQTTVirtualDeviceManager.mk [VirtualDevice.init "x" "temperature_humidity" 5])
     (VirtualDevice.init "x" "light" 8)
     (VirtualDevice.init "x" "temperature_humidity" 5) (by decide)⟩

/-- C3: for every tick of the Temperature/Humidity sensor and draws
`u ∈ [-2, 2]`, `v ∈ [-5, 5]`, the reading carries
`temperature = round1(25 + u)` and
`humidity = round1(clamp(60 + v, 0, 100))`; the humidity value always lies
in `[0, 100]`; and the generator returns the base values unchanged (no
state is carried across ticks). -/
theorem claim_C3_temperature_humidity_reading (d : VirtualDevice) (u v : ℚ)
    (now : String) (hu1 : -2 ≤ u) (hu2 : u ≤ 2) (hv1 : -5 ≤ v) (hv2 : v ≤ 5) :
    (TemperatureHumiditySensor.generate_data d TempHumState.init u v now).1.data
        = [("temperature", JsonVal.num (round1 (25 + u))),
           ("humidity", JsonVal.num (round1 (max 0 (min 100 (60 + v))))),
           ("unit_temp", JsonVal.str "°C"),
           ("unit_humidity", JsonVal.str "%")]
      ∧ 0 ≤ round1 (max 0 (min 100 (60 + v)))
      ∧ round1 (max 0 (min 100 (60 + v))) ≤ 100
      ∧ (TemperatureHumiditySensor.generate_data d TempHumState.init u v now).2
          = TempHumState.init := by
  refine ⟨rfl, ?_, ?_, rfl⟩
  · have h0 : ((0 : ℤ) : ℚ) ≤ max 0 (min 100 (60 + v)) := by
      push_cast
      exact le_max_left _ _
    have hb := intCast_le_round1 h0
    push_cast at hb
    exact hb
  · have h100 : max 0 (min 100 (60 + v)) ≤ ((100 : ℤ) : ℚ) := by
      push_cast
      exact max_le (by norm_num) (min_le_left _ _)
    have hb := round1_le_intCast h100
    push_cast at hb
    exact hb

/-- C3 witness: concrete draws `u = 1`, `v = 3` inside the stated ranges. -/
theorem claim_C3_temperature_humidity_reading_witness :
    ((-2 : ℚ) ≤ 1 ∧ (1 : ℚ) ≤ 2 ∧ (-5 : ℚ) ≤ 3 ∧ (3 : ℚ) ≤ 5)
      ∧ ((TemperatureHumiditySensor.generate_data
            (VirtualDevice.init "temp_sensor_001" "temperature_humidity" 5)
            TempHumState.init 1 3 "2024-01-01T00:00:00").1.data
          = [("temperature", JsonVal.num (round1 (25 + 1))),
             ("humidity", JsonVal.num (round1 (max 0 (min 100 (60 + 3))))),
             ("unit_temp", JsonVal.str "°C"),
             ("unit_humidity", JsonVal.str "%")]
        ∧ 0 ≤ round1 (max 0 (min 100 (60 + 3)))
        ∧ round1 (max 0 (min 100 (60 + 3))) ≤ 100
        ∧ (TemperatureHumiditySensor.generate_data
            (VirtualDevice.init "temp_sensor_001" "temperature_humidity" 5)
            TempHumState.init 1 3 "2024-01-01T00:00:00").2 = TempHumState.init) :=
  ⟨⟨by norm_num, by norm_num, by norm_num, by norm_num⟩,
   claim_C3_temperature_humidity_reading
     (VirtualDevice.init "temp_sensor_001" "temperature_humidity" 5) 1 3
     "2024-01-01T00:00:00" (by norm_num) (by norm_num) (by norm_num) (by norm_num)⟩

/-- C4: the Light sensor's reading is a pure function of the current hour
and the uniform draw: `lux = max(0, round1(500 + w))` when `6 ≤ h ≤ 18`,
`lux = max(0, round1(50 + w))` otherwise, and the published value is always
`≥ 0` (the flooring invariant).  The draw ranges (`[-200, 300]` by day,
`[-30, 50]` by night) are distributional; the formula and the floor hold
for every draw. -/
theorem claim_C4_light_reading (d : VirtualDevice) (current_hour : ℕ) (w : ℚ)
    (now : String) :
    LightSensor.generate_data d current_hour w now
        = { device_id := d.device_id, device_type := d.device_type,
            timestamp := now,
            data := [("light_intensity",
                      JsonVal.num (max 0 (round1
                        (if 6 ≤ current_hour ∧ current_hour ≤ 18
                         then 500 + w else 50 + w)))),
                     ("unit", JsonVal.str "lux")] }
      ∧ 0 ≤ max 0 (round1
          (if 6 ≤ current_hour ∧ current_hour ≤ 18 then 500 + w else 50 + w)) :=
  ⟨rfl, le_max_left 0 _⟩

/-- C5: the Motion generator is stateless (a function of the fresh draws
only); when `motion_detected` is `False` the reading's `detection_count` is
`0`, and when it is `True` the count is the `randint(0, 5)` draw, an integer
in `[0, 5]`. -/
theorem claim_C5_motion_reading (d : VirtualDevice) (c : ℕ) (now : String)
    (hc : c ≤ 5) :
    (MotionSensor.generate_data d false c now).data
        = [("motion_detected", JsonVal.bool false),
           ("detection_count", JsonVal.num 0)]
      ∧ (MotionSensor.generate_data d true c now).data
          = [("motion_detected", JsonVal.bool true),
             ("detection_count", JsonVal.num (c : ℚ))]
      ∧ 0 ≤ (c : ℚ) ∧ (c : ℚ) ≤ 5 := by
  refine ⟨rfl, rfl, by positivity, ?_⟩
  exact_mod_cast hc

/-- C5 witness: concrete draw `c = 3 ≤ 5`. -/
theorem claim_C5_motion_reading_witness :
    (3 : ℕ) ≤ 5
      ∧ ((MotionSensor.generate_data
            (VirtualDevice.init "motion_sensor_001" "motion" 10) false 3
            "2024-01-01T00:00:00").data
          = [("motion_detected", JsonVal.bool false),
             ("detection_count", JsonVal.num 0)]
        ∧ (MotionSensor.generate_data
            (VirtualDevice.init "motion_sensor_001" "motion" 10) true 3
            "2024-01-01T00:00:00").data
          = [("motion_detected", JsonVal.bool true),
             ("detection_count", JsonVal.num ((3 : ℕ) : ℚ))]
        ∧ 0 ≤ ((3 : ℕ) : ℚ) ∧ ((3 : ℕ) : ℚ) ≤ 5) :=
  ⟨by norm_num,
   claim_C5_motion_reading (VirtualDevice.init "motion_sensor_001" "motion" 10) 3
     "2024-01-01T00:00:00" (by norm_num)⟩

/-- C6: on each Smart Switch tick, the new switch state is the old one
toggled exactly when the probability-0.1 event fired, and it is stored back
into the device state (persisting across ticks); the reading and the stored
`power_consumption` equal `round2(w)` when the resulting state is ON and
`0.0` when it is OFF; and for a draw `w ∈ [5, 100]` the rounded power lies
in `[5, 100]`. -/
theorem claim_C6_smart_switch (d : VirtualDevice) (s : SmartSwitchState)
    (toggle : Bool) (w : ℚ) (now : String) (h5 : 5 ≤ w) (h100 : w ≤ 100) :
    (SmartSwitch.generate_data d s toggle w now).2.is_on
        = (if toggle then !s.is_on else s.is_on)
      ∧ (SmartSwitch.generate_data d s toggle w now).2.power_consumption
          = (if (if toggle then !s.is_on else s.is_on) then round2 w else 0)
      ∧ (SmartSwitch.generate_data d s toggle w now).1.data
          = [("switch_state",
              JsonVal.str (if (if toggle then !s.is_on else s.is_on) then "ON" else "OFF")),
             ("power_consumption",
              JsonVal.num (if (if toggle then !s.is_on else s.is_on) then round2 w else 0)),
             ("unit", JsonVal.str "W")]
      ∧ 5 ≤ round2 w ∧ round2 w ≤ 100 := by
  refine ⟨rfl, rfl, rfl, ?_, ?_⟩
  · have h := intCast_le_round2 (n := 5) (x := w) (by exact_mod_cast h5)
    exact_mod_cast h
  · have h := round2_le_intCast (n := 100) (x := w) (by exact_mod_cast h100)
    exact_mod_cast h

/-- C6 witness: initial switch state (OFF), the toggle event fires
(resulting state ON), draw `w = 50 ∈ [5, 100]`. -/
theorem claim_C6_smart_switch_witness :
    ((5 : ℚ) ≤ 50 ∧ (50 : ℚ) ≤ 100)
      ∧ ((SmartSwitch.generate_data
            (VirtualDevice.init "smart_switch_001" "smart_switch" 30)
            SmartSwitchState.init true 50 "2024-01-01T00:00:00").2.is_on
          = (if true then !SmartSwitchState.init.is_on else SmartSwitchState.init.is_on)
        ∧ (SmartSwitch.generate_data
            (VirtualDevice.init "smart_switch_001" "smart_switch" 30)
            SmartSwitchState.init true 50 "2024-01-01T00:00:00").2.power_consumption
          = (if (if true then !SmartSwitchState.init.is_on else SmartSwitchState.init.is_on)
             then round2 50 else 0)
        ∧ (SmartSwitch.generate_data
            (VirtualDevice.init "smart_switch_001" "smart_switch" 30)
            SmartSwitchState.init true 50 "2024-01-01T00:00:00").1.data
          = [("switch_state",
              JsonVal.str (if (if true then !SmartSwitchState.init.is_on
                               else SmartSwitchState.init.is_on) then "ON" else "OFF")),
             ("power_consumption",
              JsonVal.num (if (if true then !SmartSwitchState.init.is_on
                               else SmartSwitchState.init.is_on) then round2 50 else 0)),
             ("unit", JsonVal.str "W")]
        ∧ 5 ≤ round2 50 ∧ round2 50 ≤ 100) :=
  ⟨⟨by norm_num, by norm_num⟩,
   claim_C6_smart_switch (VirtualDevice.init "smart_switch_001" "smart_switch" 30)
     SmartSwitchState.init true 50 "2024-01-01T00:00:00" (by norm_num) (by norm_num)⟩

/-- C7: a tick whose body raises (a publish failure) is caught by the
`except` clause: the loop logs the error, sleeps 1 second instead of the
full `publish_interval`, and re-enters with the remaining schedule — the
failure never terminates the trace or escalates; and when the next tick
succeeds (running still true), it publishes normally and sleeps the full
interval. -/
theorem claim_C7_publish_failure_continues (d : VirtualDevice)
    (gen : ℕ → Reading) (i : ℕ) (rest : List (Bool × TickOutcome)) :
    deviceRun d gen i ((true, TickOutcome.publishFail) :: rest)
        = LoopAction.logError :: LoopAction.sleep 1 :: deviceRun d gen (i + 1) rest
      ∧ deviceRun d gen i ((true, TickOutcome.publishFail) :: (true, TickOutcome.ok) :: rest)
          = LoopAction.logError :: LoopAction.sleep 1
              :: LoopAction.publish d.topic (Reading.toJson (gen (i + 1)))
              :: LoopAction.sleep d.publish_interval
              :: deviceRun d gen (i + 1 + 1) rest :=
  ⟨rfl, rfl⟩

/-- C8: on every successful tick the loop publishes to the topic
`devices/<device_type>/<device_id>/data` — a pure function of the Device's
type and id, hence deterministic and stable per Device — with the
serialized reading as payload; the serialized payload of any reading is an
object whose keys are exactly `device_id`, `device_type`, `timestamp`,
`data`; and every generator stamps the reading with the ISO timestamp
string produced at reading-creation time (`datetime.now().isoformat()`). -/
theorem claim_C8_topic_and_payload (d : VirtualDevice) (gen : ℕ → Reading)
    (i : ℕ) (rest : List (Bool × TickOutcome)) (s : TempHumState) (u v : ℚ)
    (hr c : ℕ) (det toggle : Bool) (sw : SmartSwitchState) (w : ℚ)
    (now : String) :
    d.topic = "devices/" ++ d.device_type ++ "/" ++ d.device_id ++ "/data"
      ∧ deviceRun d gen i ((true, TickOutcome.ok) :: rest)
          = LoopAction.publish d.topic (Reading.toJson (gen i))
              :: LoopAction.sleep d.publish_interval :: deviceRun d gen (i + 1) rest
      ∧ (Reading.toJson (gen i)).keys = ["device_id", "device_type", "timestamp", "data"]
      ∧ (TemperatureHumiditySensor.generate_data d s u v now).1.timestamp = now
      ∧ (TemperatureHumiditySensor.generate_data d s u v now).1.device_id = d.device_id
      ∧ (TemperatureHumiditySensor.generate_data d s u v now).1.device_type = d.device_type
      ∧ (LightSensor.generate_data d hr w now).timestamp = now
      ∧ (MotionSensor.generate_data d det c now).timestamp = now
      ∧ (SmartSwitch.generate_data d sw toggle w now).1.timestamp = now :=
  ⟨rfl, rfl, rfl, rfl, rfl, rfl, rfl, rfl, rfl⟩

/-- C9: `stop` sets `is_running` to `False`; on a started device
(`thread` set) it joins that thread, blocking until the loop has exited; the
loop performs no action — in particular publishes nothing — from any
schedule entry at or after the iteration that observes `is_running = False`
(so after `stop` returns there are zero further publishes); and
`stop_all_devices` applies `stop` to every registered device, leaving every
device's `is_running` `False` and performing one join per started device. -/
theorem claim_C9_stop_joins_and_halts_publishing (d : VirtualDevice) (t : ℕ)
    (gen : ℕ → Reading) (i : ℕ) (s1 s2 : List (Bool × TickOutcome))
    (o : TickOutcome) (m : MQTTVirtualDeviceManager) :
    (VirtualDevice.stop d).1.is_running = false
      ∧ (VirtualDevice.stop { d with thread := some t }).2 = [StopAction.join t]
      ∧ deviceRun d gen i (s1 ++ (false, o) :: s2) = deviceRun d gen i s1
      ∧ ((MQTTVirtualDeviceManager.stop_all_devices m).1.devices.all
          fun d' => !d'.is_running) = true
      ∧ (MQTTVirtualDeviceManager.stop_all_devices m).1.devices.length
          = m.devices.length
      ∧ (MQTTVirtualDeviceManager.stop_all_devices m).2.length
          = (m.devices.filter fun d' => d'.thread.isSome).length := by
  refine ⟨rfl, rfl, deviceRun_false_flag d gen i s1 o s2, ?_, ?_, ?_⟩
  · simp [MQTTVirtualDeviceManager.stop_all_devices, VirtualDevice.stop,
      List.all_eq_true]
  · simp [MQTTVirtualDeviceManager.stop_all_devices]
  · simpa [MQTTVirtualDeviceManager.stop_all_devices] using stopActions_length m.devices

/-- C10: calling `stop` on a device that was never started (`thread` is
still `None`, as `__init__` leaves it) is safe: it sets `is_running` to
`False`, performs no join, raises nothing (the function is total), and
leaves every other field — id, type, interval, thread — unchanged; on a
freshly constructed device it is the identity apart from the (already
`False`) flag. -/
theorem claim_C10_stop_before_start_safe (id ty : String) (iv : ℕ) (b : Bool) :
    VirtualDevice.stop
        { device_id := id, device_type := ty, publish_interval := iv,
          is_running := b, thread := none }
        = ({ device_id := id, device_type := ty, publish_interval := iv,
             is_running := false, thread := none }, [])
      ∧ (VirtualDevice.init id ty iv).thread = none
      ∧ (VirtualDevice.init id ty iv).is_running = false
      ∧ VirtualDevice.stop (VirtualDevice.init id ty iv)
          = (VirtualDevice.init id ty iv, []) :=
  ⟨rfl, rfl, rfl, rfl⟩

end VirtualDeviceSim
